import Mathlib

/-!
Shallow embedding of the page-acquisition engine in `spider/src/utils/mod.rs`
(together with the `WaitFor` data model from
`spider/src/features/chrome_common.rs`).

Bodies and chunks are byte sequences modelled as `List Nat` (each entry one
byte); header maps are association lists in iteration order; durations are in
milliseconds.  Asynchronous effects (page waits, iframe clicks, body captures)
are modelled by explicit traces, and fallible I/O (temp-file creation and
writes, URI parsing) by boolean oracles, so that every control path of the
source is represented and every definition is executable.
-/

namespace Spider

/-- Bytes of an ASCII string literal, used for the byte-marker constants the
source declares with `b"..."`. -/
def str_bytes (s : String) : List Nat := s.toList.map Char.toNat

/-- Rust's `slice::starts_with` on byte slices. -/
def starts_with : List Nat → List Nat → Bool
  | _, [] => true
  | [], _ :: _ => false
  | x :: xs, p :: ps => x == p && starts_with xs ps

/-- Rust's `slice::ends_with` on byte slices. -/
def ends_with (xs tail : List Nat) : Bool :=
  starts_with xs.reverse tail.reverse

/-- The `MAX_SIZE_BYTES` lazy static: reads `SPIDER_MAX_SIZE_BYTES`.
The argument models the environment variable: `none` when unset,
`some none` when set but unparseable, `some (some n)` when set to `n`.
An unset variable yields `0` (unlimited); a parse failure falls back to
the 1 GiB default; an explicit `0` stays `0`; any other value is clamped
below by 1 MiB via `Nat.max`. -/
def max_size_bytes (env : Option (Option Nat)) : Nat :=
  match env with
  | some parsed =>
    let b := parsed.getD 1073741824
    if b = 0 then 0 else Nat.max b 1048576
  | none => 0

/-- The streaming accumulation loop of `fetch_page_html_raw` (and of the
identical inline fallback loop in `fetch_page_html_chrome`): each `Ok`
chunk is appended unless a nonzero `limit` would be exceeded, in which
case the loop breaks, returning the data gathered so far.  Stream items
that arrive as `Err` are skipped by the source (`_ => ()`), so `chunks`
lists the successfully received chunks. -/
def raw_accumulate (limit : Nat) : List (List Nat) → List Nat → List Nat
  | [], data => data
  | chunk :: rest, data =>
    if 0 < limit ∧ limit < data.length + chunk.length then data
    else raw_accumulate limit rest (data ++ chunk)

/-- Oracles for the effects of the disk-spillover loop in the `fs` build of
`fetch_page_html`: `capSmall i` is the value of `data.capacity() < 8192`
observed at iteration `i` (the `BytesMut` capacity is an allocator detail,
so it is supplied abstractly); `createOk i` / `writeOk i` report whether
`File::create` / `write_all` succeed at iteration `i`; `readOk` reports
whether the final `File::open`/`read_to_end` readback succeeds (on failure
the readback buffer stays empty). -/
structure FsOracle where
  capSmall : Nat → Bool
  createOk : Nat → Bool
  writeOk : Nat → Bool
  readOk : Bool

/-- Loop state of the `fs` accumulation: the in-memory `BytesMut` buffer and
the temp file (`none` until created, otherwise its contents written so far). -/
structure FsState where
  data : List Nat
  file : Option (List Nat)

/-- One iteration of the `fs` streaming loop of `fetch_page_html`:
while no file exists and the capacity check passes, chunks go to memory;
on the first capacity overflow the file is created and the whole buffer
plus the chunk is written (on write failure the buffer is kept in memory
and the file stays empty); once a file exists each chunk is written to it,
falling back to the memory buffer when the write fails. -/
def fs_step (o : FsOracle) (i : Nat) (s : FsState) (chunk : List Nat) : FsState :=
  match s.file with
  | none =>
    if o.capSmall i then { s with data := s.data ++ chunk }
    else if o.createOk i then
      let data := s.data ++ chunk
      if o.writeOk i then { data := [], file := some data }
      else { data := data, file := some [] }
    else { s with data := s.data ++ chunk }
  | some f =>
    if o.writeOk i then { s with file := some (f ++ chunk) }
    else { s with data := s.data ++ chunk }

/-- The `while let Some(item) = stream.next()` loop of the `fs` build of
`fetch_page_html`, iterating `fs_step` over the received chunks. -/
def fs_loop (o : FsOracle) : Nat → FsState → List (List Nat) → FsState
  | _, s, [] => s
  | i, s, chunk :: rest => fs_loop o (i + 1) (fs_step o i s chunk) rest

/-- Assembly of the final body in the `fs` build of `fetch_page_html`:
if a temp file was created, it is read back fully (and then removed);
otherwise the in-memory buffer is returned. -/
def fs_finish (o : FsOracle) (s : FsState) : List Nat :=
  match s.file with
  | some f => if o.readOk then f else []
  | none => s.data

/-- The complete body accumulation of the `fs` build of `fetch_page_html`,
from an empty `BytesMut` and no file. -/
def fs_accumulate (o : FsOracle) (chunks : List (List Nat)) : List Nat :=
  fs_finish o (fs_loop o 0 { data := [], file := none } chunks)

/-- Oracle describing a run in which every temp-file operation succeeds;
the capacity predicate (hence the spill point) stays arbitrary. -/
def successOracle (cap : Nat → Bool) : FsOracle :=
  { capSmall := cap, createOk := fun _ => true, writeOk := fun _ => true, readOk := true }

/-- Concrete failure scenario for the spillover loop: the capacity check
passes only at iteration 0, the file is then created successfully, but the
initial `write_all` of the buffered data (iteration 1) fails while later
writes succeed. -/
def failOracle : FsOracle :=
  { capSmall := fun i => i == 0
  , createOk := fun _ => true
  , writeOk := fun i => !(i == 1)
  , readOk := true }

/-- The `PageResponse` struct (fields not driven by the modelled paths —
screenshots, AI artifacts, `error_for_status` — are omitted).
`StatusCode::default()` is `200 OK`, so the `Default` instance of the
source struct carries `content = None`, `headers = None`,
`status_code = 200`, `final_url = None`. -/
structure PageResponseM where
  content : Option (List Nat) := none
  headers : Option (List (String × String)) := none
  status_code : Nat := 200
  final_url : Option String := none
deriving DecidableEq

/-- `res.status().is_success()`: a 2xx status. -/
def is_success (status : Nat) : Bool := 200 ≤ status && status < 300

/-- The data of a transport-level success in `fetch_page_html_raw`:
the reported status, the response's final URL, its headers, and the
successfully received body chunks. -/
structure RawOk where
  status : Nat
  url : String
  headers : List (String × String)
  chunks : List (List Nat)

/-- `fetch_page_html_raw`: `none` models the `Err(_)` transport branch,
which logs and returns `Default::default()`; a response with a non-success
status yields headers and status only; a success streams the body through
the size-capped accumulation loop and records the redirect target when the
final URL differs from the requested one. -/
def fetch_page_html_raw (target_url : String) (limit : Nat)
    (result : Option RawOk) : PageResponseM :=
  match result with
  | some res =>
    if is_success res.status then
      { headers := some res.headers
      , content := some (raw_accumulate limit res.chunks [])
      , final_url := if target_url ≠ res.url then some res.url else none
      , status_code := res.status }
    else
      { headers := some res.headers, status_code := res.status }
  | none => {}

/-- The chrome build of `fetch_page_html`: the result of
`fetch_page_html_chrome_base` when it returned `Ok`, else (`none`, the
`Err(err)` branch) the unconditional fallback to `fetch_page_html_raw`. -/
def fetch_page_html_chrome_wrap (chrome_result : Option PageResponseM)
    (target_url : String) (limit : Nat) (raw : Option RawOk) : PageResponseM :=
  match chrome_result with
  | some page => page
  | none => fetch_page_html_raw target_url limit raw

/-- `WaitForIdleNetwork` (timeout in milliseconds, `none` = no timeout). -/
structure WaitForIdleNetworkM where
  timeout : Option Nat
deriving DecidableEq

/-- `WaitForSelector`. -/
structure WaitForSelectorM where
  timeout : Option Nat
  selector : String
deriving DecidableEq

/-- `WaitForDelay`. -/
structure WaitForDelayM where
  timeout : Option Nat
deriving DecidableEq

/-- The composite `WaitFor` spec from `chrome_common.rs`. -/
structure WaitForM where
  selector : Option WaitForSelectorM
  idle_network : Option WaitForIdleNetworkM
  delay : Option WaitForDelayM
  page_navigations : Bool
deriving DecidableEq

/-- `WaitFor::default()`: every sub-spec absent, `page_navigations = false`. -/
def waitForDefault : WaitForM :=
  { selector := none, idle_network := none, delay := none, page_navigations := false }

/-- One sub-wait performed by `page_wait`: an idle-network wait
(`wait_for_event::<EventLoadingFinished>`), a selector poll
(`wait_for_selector`), or a plain sleep. -/
inductive SubWait
  | idle_network (timeout : Option Nat)
  | selector (timeout : Option Nat) (sel : String)
  | delay (timeout : Nat)
deriving DecidableEq

/-- `page_wait`: the trace of sub-waits it performs.  The source runs three
sequential `match` blocks — idle network first, then selector, then delay —
each skipped when the sub-spec is `None` (and the delay also when its inner
timeout is `None`).  Every sub-wait swallows its own timeout
(`if let Err(_) = tokio::time::timeout(..) {}`), so the function returns
unit in the source; here it returns the trace. -/
def page_wait (wait_for : Option WaitForM) : List SubWait :=
  match wait_for with
  | some w =>
    let trace : List SubWait := []
    let trace :=
      match w.idle_network with
      | some network_idle => trace ++ [SubWait.idle_network network_idle.timeout]
      | none => trace
    let trace :=
      match w.selector with
      | some await_for_selector =>
        trace ++ [SubWait.selector await_for_selector.timeout await_for_selector.selector]
      | none => trace
    let trace :=
      match w.delay with
      | some wait_for_delay =>
        match wait_for_delay.timeout with
        | some timeout => trace ++ [SubWait.delay timeout]
        | none => trace
      | none => trace
    trace
  | none => []

/-- The `CF_END` marker bytes from `cf_handle`. -/
def cf_end : List Nat :=
  str_bytes "target=\"_blank\">Cloudflare</a></div></div></div></body></html>"

/-- The `CF_END2` marker bytes from `cf_handle`. -/
def cf_end2 : List Nat :=
  str_bytes "Performance &amp; security by Cloudflare</div></div></div></body></html>"

/-- The `CF_HEAD` marker bytes from `cf_handle`. -/
def cf_head : List Nat :=
  str_bytes "<html><head>\n    <style global=\"\">"

/-- The `CF_MOCK_FRAME` marker bytes from `cf_handle`. -/
def cf_mock_frame : List Nat :=
  str_bytes "<iframe height=\"1\" width=\"1\" style=\"position: absolute; top: 0px; left: 0px; border: none; visibility: hidden;\"></iframe>\n\n</body></html>"

/-- The challenge fingerprint test of `cf_handle`:
`b.ends_with(cf) || b.ends_with(cf2) || b.starts_with(cn) && b.ends_with(cnf)`
(Rust `&&` binds tighter than `||`, mirrored here by `&&`/`||`). -/
def cf_detected (b : List Nat) : Bool :=
  ends_with b cf_end || ends_with b cf_end2 ||
    (starts_with b cf_head && ends_with b cf_mock_frame)

/-- One observable page interaction performed by `cf_handle`: a
`page_wait` call with the given spec, the iframe-clicking
`page.evaluate` script, or a `page.content_bytes()` capture. -/
inductive PageEvent
  | wait (w : WaitForM)
  | click_iframes
  | capture
deriving DecidableEq

/-- The first wait spec `cf_handle` builds: `WaitFor::default()` with
`delay = 1s` and `idle_network = 8s`. -/
def cfWait1 : WaitForM :=
  { waitForDefault with
      delay := some { timeout := some 1000 }
      idle_network := some { timeout := some 8000 } }

/-- The second wait spec: the first with `page_navigations = true`. -/
def cfWait2 : WaitForM := { cfWait1 with page_navigations := true }

/-- The third wait spec: the second with `delay` raised to 4s. -/
def cfWait3 : WaitForM := { cfWait2 with delay := some { timeout := some 4000 } }

/-- `cf_handle` (the `real_browser` build): given the current body and the
bodies the page yields at each `content_bytes()` call (`cap i` is the
`i`-th capture), returns the final body together with the trace of page
interactions.  Bodies with no matching marker are returned unchanged with
an empty trace.  The capture oracle is total, modelling the runs in which
`content_bytes()` succeeds (its `Err` propagates out of `cf_handle` and is
discarded by the caller, leaving the body unchanged). -/
def cf_handle (b : List Nat) (cap : Nat → List Nat) : List Nat × List PageEvent :=
  if cf_detected b then
    let wait_for := { waitForDefault with
      delay := some { timeout := some 1000 }
      idle_network := some { timeout := some 8000 } }
    let trace := [PageEvent.wait wait_for]
    let trace := trace ++ [PageEvent.click_iframes]
    let wait_for := { wait_for with page_navigations := true }
    let trace := trace ++ [PageEvent.wait wait_for]
    let next_content := cap 0
    let trace := trace ++ [PageEvent.capture]
    if cf_detected next_content then
      let wait_for := { wait_for with delay := some { timeout := some 4000 } }
      let trace := trace ++ [PageEvent.wait wait_for, PageEvent.capture]
      (cap 1, trace)
    else
      (next_content, trace)
  else
    (b, [])

/-- The leading bytes of the unresolved challenge template checked in
`fetch_page_html_chrome_base` (`res.starts_with(..)`). -/
def waf_head : List Nat :=
  str_bytes "<html><head>\n    <style global="

/-- The trailing bytes of the unresolved challenge template checked in
`fetch_page_html_chrome_base` (`res.ends_with(..)`). -/
def waf_tail : List Nat :=
  str_bytes ";</script><iframe height=\"1\" width=\"1\" style=\"position: absolute; top: 0px; left: 0px; border: none; visibility: hidden;\"></iframe>\n\n</body></html>"

/-- The status override in `fetch_page_html_chrome_base`: when the
navigation metadata flagged a challenge (`waf_check`) and the final body
still matches the raw challenge template, the status becomes
`StatusCode::FORBIDDEN` (403); otherwise the backend status is kept. -/
def chrome_base_status (waf_check : Bool) (res : List Nat) (status_code : Nat) : Nat :=
  if waf_check && starts_with res waf_head && ends_with res waf_tail then 403
  else status_code

/-- Construction of the `PageResponse` in `fetch_page_html_chrome_base`
from the final body (`res`, after `cf_handle`), the metadata status and the
redirect target: `content` is set only when the body is nonempty
(`ok = res.len() > 0`) and the status passes through the WAF override. -/
def chrome_page_response (waf_check : Bool) (res : List Nat) (status_code : Nat)
    (final_url : Option String) : PageResponseM :=
  { content := if res.length > 0 then some res else none
  , status_code := chrome_base_status waf_check res status_code
  , final_url := final_url }

/-- `http::StatusCode::from_u16` succeeds exactly on 100..=999 (the http
crate accepts all three-digit codes, including non-standard 600-999;
`from_u16(1000)` fails). -/
def valid_status (n : Nat) : Bool := 100 ≤ n && n < 1000

/-- `StatusCode::from_u16(n).unwrap_or(StatusCode::EXPECTATION_FAILED)`:
the pattern used both in `perform_chrome_http_request` and in
`put_hybrid_cache` (417 is `EXPECTATION_FAILED`). -/
def status_or_417 (n : Nat) : Nat := if valid_status n then n else 417

/-- Rust's truncating `as u16` cast applied to the i64 CDP status. -/
def as_u16 (s : Int) : Nat := (s % 65536).toNat

/-- The status recorded in `ChromeHTTPReqRes` by `perform_chrome_http_request`:
`StatusCode::from_u16(response.status as u16).unwrap_or(EXPECTATION_FAILED)`. -/
def perform_chrome_status (response_status : Int) : Nat :=
  status_or_417 (as_u16 response_status)

/-- Valid token character for an HTTP header name or method
(`a`-`z`, `A`-`Z`, `0`-`9` plus RFC 7230 specials, given by byte value). -/
def token_char_ok (c : Char) : Bool :=
  c.isAlphanum ||
    [33, 35, 36, 37, 38, 39, 42, 43, 45, 46, 94, 95, 96, 124, 126].contains c.toNat

/-- `http::HeaderName::from_str` succeeds on a nonempty token
(standard and custom names are stored lowercased). -/
def header_name_ok (s : String) : Bool :=
  s.length > 0 && s.toList.all token_char_ok

/-- `http::HeaderValue::from_str` succeeds when every byte is visible
ASCII (32..=126) or horizontal tab. -/
def header_value_ok (s : String) : Bool :=
  s.toList.all fun c => (32 ≤ c.toNat && c.toNat < 127) || c.toNat = 9

/-- ASCII lowercasing of one character (used by `HeaderName` parsing). -/
def lower_char (c : Char) : Char :=
  if 65 ≤ c.toNat ∧ c.toNat ≤ 90 then Char.ofNat (c.toNat + 32) else c

/-- ASCII lowercasing of a header name: `HeaderName` stores standard and
custom names lowercased. -/
def lower_string (s : String) : String := (s.toList.map lower_char).asString

/-- `http::HeaderMap::insert`: replaces the value of an existing name in
place, otherwise appends. -/
def insert_header : List (String × String) → String → String → List (String × String)
  | [], k, v => [(k, v)]
  | (k0, v0) :: rest, k, v =>
    if k0 = k then (k0, v) :: rest else (k0, v0) :: insert_header rest k v

/-- `convert_headers`: walks the map entries (the source iterates a
`HashMap`, whose order is unspecified; the model is parametric in the
given order), keeps entries whose value and name both parse (the name
lowercased by `HeaderName`), and breaks after index 2000 has been
exceeded. -/
def convert_headers_go : Nat → List (String × String) → List (String × String) →
    List (String × String)
  | _, header_map, [] => header_map
  | index, header_map, (k, v) :: rest =>
    let header_map :=
      if header_value_ok v && header_name_ok k then insert_header header_map (lower_string k) v
      else header_map
    if index > 2000 then header_map else convert_headers_go (index + 1) header_map rest

/-- `convert_headers` from an empty `HeaderMap`. -/
def convert_headers (headers : List (String × String)) : List (String × String) :=
  convert_headers_go 0 [] headers

/-- `reqwest::Method::from_bytes(m).unwrap_or(Method::GET)`: a nonempty
token is accepted as-is, anything else falls back to `GET`. -/
def method_from_bytes (m : String) : String :=
  if m.length > 0 && m.toList.all token_char_ok then m else "GET"

/-- The `HttpVersion` enum. -/
inductive HttpVersion
  | Http09
  | Http10
  | Http11
  | H2
  | H3
deriving DecidableEq

/-- The `HttpResponse` struct handed to the hybrid cache writer. -/
structure HttpResponseM where
  body : List Nat
  headers : List (String × String)
  status : Nat
  url : String
  version : HttpVersion

/-- `HttpRequestLike`: the request side handed to `CachePolicy::new`. -/
structure HttpRequestLikeM where
  uri : String
  method : String
  headers : List (String × String)

/-- `HttpResponseLike`: the response side handed to `CachePolicy::new`. -/
structure HttpResponseLikeM where
  status : Nat
  headers : List (String × String)

/-- Everything `put_hybrid_cache` hands to `CACACHE_MANAGER.put`: the key,
the two sides of the computed `CachePolicy`, and the stored entry. -/
structure CacheWrite where
  key : String
  policyReq : HttpRequestLikeM
  policyRes : HttpResponseLikeM
  entryUrl : String
  entryBody : List Nat
  entryHeaders : List (String × String)
  entryVersion : HttpVersion
  entryStatus : Nat

/-- `put_hybrid_cache` (the `cache_chrome_hybrid` build): re-parses the
response URL as a `Uri` (`uriOk`; on failure nothing is stored), then
builds the policy sides and the entry exactly as the source does — note it
passes `convert_headers(&http_response.headers)` (the RESPONSE headers) as
the request side and `convert_headers(&http_request_headers)` (the REQUEST
headers) as the response side — and stores the entry under `cache_key`.
The write result itself is discarded (`let _ = ...`). -/
def put_hybrid_cache (uriOk : Bool) (cache_key : String)
    (http_response : HttpResponseM) (method : String)
    (http_request_headers : List (String × String)) : Option CacheWrite :=
  if uriOk then
    some
      { key := cache_key
      , policyReq :=
          { uri := http_response.url
          , method := method_from_bytes method
          , headers := convert_headers http_response.headers }
      , policyRes :=
          { status := status_or_417 http_response.status
          , headers := convert_headers http_request_headers }
      , entryUrl := http_response.url
      , entryBody := http_response.body
      , entryHeaders := http_response.headers
      , entryVersion := http_response.version
      , entryStatus := http_response.status }
  else none

/-- The `ChromeHTTPReqRes` record captured by `perform_chrome_http_request`. -/
structure ChromeHTTPReqResM where
  waf_check : Bool
  status_code : Nat
  method : String
  response_headers : List (String × String)
  request_headers : List (String × String)
  protocol : String

/-- The protocol-string-to-version mapping in `fetch_page_html_chrome_base`. -/
def protocol_to_version (p : String) : HttpVersion :=
  if p = "http/0.9" then HttpVersion.Http09
  else if p = "http/1" ∨ p = "http/1.0" then HttpVersion.Http10
  else if p = "http/1.1" then HttpVersion.Http11
  else if p = "http/2.0" ∨ p = "http/2" then HttpVersion.H2
  else if p = "http/3.0" ∨ p = "http/3" then HttpVersion.H3
  else HttpVersion.Http11

/-- The cache-write block of `fetch_page_html_chrome_base` (entered when
the page was freshly navigated, `!page_set`): parses the source URL
(`urlOk`; on failure nothing is written), assembles the `HttpResponse`
from the captured metadata and final content, and calls `put_hybrid_cache`
with the key `method ":" source`. -/
def chrome_cache_write (c : ChromeHTTPReqResM) (source : String)
    (content : Option (List Nat)) (urlOk uriOk : Bool) : Option CacheWrite :=
  if urlOk then
    put_hybrid_cache uriOk (c.method ++ ":" ++ source)
      { url := source
      , body := content.getD []
      , status := c.status_code
      , version := protocol_to_version c.protocol
      , headers := c.response_headers }
      c.method c.request_headers
  else none

/-- The `Handler` control-signal enum. -/
inductive Handler
  | Start
  | Pause
  | Resume
  | Shutdown
deriving DecidableEq

/-- The `CONTROLLER` watch channel: a single slot holding the latest
`(target, signal)` pair.  The receiver half lives inside the static tuple
for the process lifetime, so a subscriber always exists and
`watch::Sender::send` always overwrites the slot; the ops discard the send
result (`match ... { _ => () }`), so a send without external subscribers
is not an error. -/
structure WatchChannel where
  value : String × Handler
deriving DecidableEq

/-- The initial channel contents `("handles", Handler::Start)`. -/
def controller_init : WatchChannel := { value := ("handles", Handler.Start) }

/-- `watch::Sender::send`: overwrite the single slot. -/
def watch_send (c : WatchChannel) (v : String × Handler) : WatchChannel :=
  let _ := c
  { value := v }

/-- `pause(target)`. -/
def pause (c : WatchChannel) (target : String) : WatchChannel :=
  watch_send c (target, Handler.Pause)

/-- `resume(target)`. -/
def resume (c : WatchChannel) (target : String) : WatchChannel :=
  watch_send c (target, Handler.Resume)

/-- `shutdown(target)`. -/
def shutdown (c : WatchChannel) (target : String) : WatchChannel :=
  watch_send c (target, Handler.Shutdown)

/-- `reset(target)` (sends `Handler::Start`). -/
def reset (c : WatchChannel) (target : String) : WatchChannel :=
  watch_send c (target, Handler.Start)

/-- The raw accumulation loop preserves any size bound when the limit is
positive: no iteration appends a chunk that would push the length past the
limit. -/
lemma raw_accumulate_length_le (limit : Nat) (hpos : 0 < limit) :
    ∀ (chunks : List (List Nat)) (data : List Nat),
      data.length ≤ limit → (raw_accumulate limit chunks data).length ≤ limit := by
  intro chunks
  induction chunks with
  | nil => intro data hd; simpa [raw_accumulate] using hd
  | cons c rest ih =>
    intro data hd
    by_cases hc : 0 < limit ∧ limit < data.length + c.length
    · simpa [raw_accumulate, hc] using hd
    · rw [raw_accumulate, if_neg hc]
      apply ih
      rw [List.length_append]
      omega

/-- With limit `0` the raw accumulation loop appends every chunk. -/
lemma raw_accumulate_zero :
    ∀ (chunks : List (List Nat)) (data : List Nat),
      raw_accumulate 0 chunks data = data ++ chunks.flatten := by
  intro chunks
  induction chunks with
  | nil => intro data; simp [raw_accumulate]
  | cons c rest ih =>
    intro data
    rw [raw_accumulate, if_neg (by simp)]
    rw [ih]
    simp

/-- The body held by the `fs` loop state: the file contents once a file
exists, the memory buffer otherwise. -/
def fs_content (s : FsState) : List Nat :=
  match s.file with
  | some f => f
  | none => s.data

/-- A loop state whose memory buffer is empty whenever a file exists
(maintained by the loop as long as every write succeeds). -/
def fs_tidy (s : FsState) : Prop := s.file.isSome → s.data = []

/-- When every temp-file operation succeeds, each loop iteration appends
its chunk to the held body and keeps the state tidy. -/
lemma fs_loop_success (cap : Nat → Bool) :
    ∀ (chunks : List (List Nat)) (i : Nat) (s : FsState), fs_tidy s →
      fs_content (fs_loop (successOracle cap) i s chunks) =
        fs_content s ++ chunks.flatten ∧
      fs_tidy (fs_loop (successOracle cap) i s chunks) := by
  intro chunks
  induction chunks with
  | nil =>
    intro i s hs
    refine ⟨by simp [fs_loop], by simpa [fs_loop] using hs⟩
  | cons c rest ih =>
    intro i s hs
    rw [fs_loop]
    rcases hf : s.file with _ | f
    · by_cases hcap : cap i
      · have hstep : fs_step (successOracle cap) i s c =
            { data := s.data ++ c, file := none } := by
          simp [fs_step, successOracle, hf, hcap]
        rw [hstep]
        have h := ih (i + 1) { data := s.data ++ c, file := none } (by simp [fs_tidy])
        refine ⟨?_, h.2⟩
        rw [h.1]
        simp [fs_content, hf]
      · have hstep : fs_step (successOracle cap) i s c =
            { data := [], file := some (s.data ++ c) } := by
          simp [fs_step, successOracle, hf, hcap]
        rw [hstep]
        have h := ih (i + 1) { data := [], file := some (s.data ++ c) }
          (by simp [fs_tidy])
        refine ⟨?_, h.2⟩
        rw [h.1]
        simp [fs_content, hf]
    · have hdata : s.data = [] := hs (by simp [hf])
      have hstep : fs_step (successOracle cap) i s c =
          { data := s.data, file := some (f ++ c) } := by
        simp [fs_step, successOracle, hf]
      rw [hstep]
      have h := ih (i + 1) { data := s.data, file := some (f ++ c) }
        (by simp [fs_tidy, hdata])
      refine ⟨?_, h.2⟩
      rw [h.1]
      simp [fs_content, hf]

/-- When the final readback succeeds, finishing returns the held body. -/
lemma fs_finish_eq_content (o : FsOracle) (s : FsState) (h : o.readOk = true) :
    fs_finish o s = fs_content s := by
  rcases hf : s.file with _ | f <;> simp [fs_finish, fs_content, hf, h]

/-- With every temp-file operation succeeding, the `fs` accumulator
returns the exact ordered concatenation of its input, wherever the
capacity threshold makes it spill. -/
lemma fs_accumulate_success (cap : Nat → Bool) (chunks : List (List Nat)) :
    fs_accumulate (successOracle cap) chunks = chunks.flatten := by
  have h := fs_loop_success cap chunks 0 { data := [], file := none }
    (by simp [fs_tidy])
  rw [fs_accumulate, fs_finish_eq_content _ _ rfl, h.1]
  simp [fs_content]

/-- C1: evaluation of the cache-write path at a concrete fetch.  The key is
formed as `method ":" url`, but the cache policy's request side receives
the RESPONSE headers and its response side receives the REQUEST headers —
`put_hybrid_cache` passes `convert_headers(&http_response.headers)` into
`HttpRequestLike` and `convert_headers(&http_request_headers)` into
`HttpResponseLike`, the opposite of what the claim (and the `RequestLike`/
`ResponseLike` roles) require. -/
theorem hybrid_cache_policy_header_swap :
    (chrome_cache_write
        { waf_check := false, status_code := 200, method := "GET"
        , response_headers := [("cache-control", "max-age=60")]
        , request_headers := [("x-req", "1")]
        , protocol := "http/1.1" }
        "https://e.com/" (some [104, 105]) true true).map
      (fun w => (w.key, w.policyReq.headers, w.policyRes.headers, w.entryStatus))
    = some ("GET:https://e.com/", [("cache-control", "max-age=60")],
        [("x-req", "1")], 200) := by
  rfl

/-- C2 (counterexample): the claim fails for the disk-spillover backend.
With the environment limit explicitly set to `1` the effective global
limit is its 1 MiB floor — nonzero — yet the `fs` accumulation loop of
`fetch_page_html`, which never consults `MAX_SIZE_BYTES`, returns a
1048577-byte body, exceeding the limit. -/
theorem fs_backend_exceeds_byte_limit :
    0 < max_size_bytes (some (some 1)) ∧
    max_size_bytes (some (some 1)) <
      (fs_accumulate (successOracle fun _ => true) [List.replicate 1048577 0]).length := by
  have hm : max_size_bytes (some (some 1)) = 1048576 := rfl
  constructor
  · rw [hm]; norm_num
  · rw [fs_accumulate_success, hm]
    have h1 : ([List.replicate 1048577 (0 : Nat)]).flatten = List.replicate 1048577 0 := by
      rw [List.flatten_cons, List.flatten_nil, List.append_nil]
    rw [h1, List.length_replicate]
    norm_num

/-- C2 (amended): for every stream and every nonzero limit `N`, the raw
HTTP accumulation loop (used by `fetch_page_html_raw` and the chrome
fallback) returns at most `N` bytes, and a chunk that would push the total
over `N` stops accumulation early with the truncated data; with limit `0`
it returns the whole input.  The disk-spillover backend applies no byte
limit: it returns the whole input (all temp-file operations succeeding)
regardless of any limit. -/
theorem accumulate_byte_limit_amended (N : Nat) (chunks : List (List Nat))
    (cap : Nat → Bool) :
    (0 < N → (raw_accumulate N chunks []).length ≤ N) ∧
    raw_accumulate 0 chunks [] = chunks.flatten ∧
    fs_accumulate (successOracle cap) chunks = chunks.flatten ∧
    (∀ (c : List Nat) (rest : List (List Nat)) (data : List Nat),
      0 < N → N < data.length + c.length →
        raw_accumulate N (c :: rest) data = data) := by
  refine ⟨fun hN => raw_accumulate_length_le N hN chunks [] (by simp),
    by simpa using raw_accumulate_zero chunks [],
    fs_accumulate_success cap chunks,
    fun c rest data hN hlt => ?_⟩
  rw [raw_accumulate, if_pos ⟨hN, hlt⟩]

/-- Witness for C2 (amended) at a concrete stream: limit 5 truncates
`[1,2,3],[4,5,6]` to at most 5 bytes, limit 0 and the spillover path
return all 6 bytes, and the overflowing chunk `[4,5,6]` stops the loop. -/
theorem accumulate_byte_limit_amended_witness :
    (raw_accumulate 5 [[1, 2, 3], [4, 5, 6]] []).length ≤ 5 ∧
    raw_accumulate 0 [[1, 2, 3], [4, 5, 6]] [] = [1, 2, 3, 4, 5, 6] ∧
    fs_accumulate (successOracle fun _ => false) [[1, 2, 3], [4, 5, 6]] =
      [1, 2, 3, 4, 5, 6] ∧
    raw_accumulate 5 [[4, 5, 6]] [1, 2, 3] = [1, 2, 3] :=
  ⟨(accumulate_byte_limit_amended 5 [[1, 2, 3], [4, 5, 6]] (fun _ => false)).1
      (by decide),
   (accumulate_byte_limit_amended 0 [[1, 2, 3], [4, 5, 6]] (fun _ => false)).2.1,
   (accumulate_byte_limit_amended 5 [[1, 2, 3], [4, 5, 6]] (fun _ => false)).2.2.1,
   (accumulate_byte_limit_amended 5 [[1, 2, 3], [4, 5, 6]] (fun _ => false)).2.2.2
      [4, 5, 6] [] [1, 2, 3] (by decide) (by decide)⟩

/-- C3: in `fetch_page_html_chrome_base`, when the navigation metadata
flagged a challenge and the final body still matches the raw challenge
template (its leading and trailing byte sequences), the returned
`PageResponse` status is forced to 403 Forbidden; when any of the three
conditions fails, the backend's status is kept. -/
theorem waf_forbidden_override (waf : Bool) (res : List Nat) (status : Nat)
    (fu : Option String) :
    (waf = true → starts_with res waf_head = true → ends_with res waf_tail = true →
      (chrome_page_response waf res status fu).status_code = 403) ∧
    ((waf && starts_with res waf_head && ends_with res waf_tail) = false →
      (chrome_page_response waf res status fu).status_code = status) := by
  constructor
  · intro h1 h2 h3
    simp [chrome_page_response, chrome_base_status, h1, h2, h3]
  · intro h
    simp [chrome_page_response, chrome_base_status, h]

/-- Witness for C3: a body that is exactly the challenge template is
forced to 403 when the challenge was flagged, and keeps the backend status
when it was not. -/
theorem waf_forbidden_override_witness :
    (chrome_page_response true (waf_head ++ waf_tail) 200 none).status_code = 403 ∧
    (chrome_page_response false (waf_head ++ waf_tail) 200 none).status_code = 200 :=
  ⟨(waf_forbidden_override true (waf_head ++ waf_tail) 200 none).1 rfl
      (by decide) (by decide),
   (waf_forbidden_override false (waf_head ++ waf_tail) 200 none).2 (by decide)⟩

/-- C4: no failure propagates to the fetch caller.  A transport error in
`fetch_page_html_raw` yields the default `PageResponse` (empty content,
default 200 status), and a browser-backend error makes the chrome build of
`fetch_page_html` return exactly the raw HTTP backend's response. -/
theorem fetch_error_degrades_and_falls_back (url : String) (limit : Nat)
    (raw : Option RawOk) :
    fetch_page_html_raw url limit none = ({} : PageResponseM) ∧
    (fetch_page_html_raw url limit none).content = none ∧
    (fetch_page_html_raw url limit none).status_code = 200 ∧
    fetch_page_html_chrome_wrap none url limit raw = fetch_page_html_raw url limit raw :=
  ⟨rfl, rfl, rfl, rfl⟩

/-- C5: evaluation of the spillover accumulator at the failing input.
Three chunks arrive; the capacity threshold is crossed at the second, the
temp file is created, the first `write_all` fails (the source then keeps
the buffered bytes in memory) and the next write succeeds.  The final body
is only `[3]`: the completion path returns the file contents whenever a
file exists, discarding the memory buffer holding `[1, 2]`, so chunks are
lost instead of degrading to in-memory accumulation. -/
theorem fs_spill_write_failure_drops_chunks :
    fs_accumulate failOracle [[1], [2], [3]] = [3] ∧
    ([[1], [2], [3]] : List (List Nat)).flatten = [1, 2, 3] :=
  ⟨rfl, rfl⟩

/-- C6: `cf_handle` runs exactly one escalation pass.  A body matching no
challenge marker is returned unchanged with zero page interactions.  A
matching body triggers: wait (delay 1s + idle-network 8s), click all
iframes, re-wait with `page_navigations` enabled, re-capture; only if the
re-captured body still matches does it wait once more (delay raised to 4s)
and re-capture exactly once, returning whichever body was captured last. -/
theorem cf_handle_single_escalation (b : List Nat) (cap : Nat → List Nat) :
    (cf_detected b = false → cf_handle b cap = (b, [])) ∧
    (cf_detected b = true → cf_detected (cap 0) = false →
      cf_handle b cap = (cap 0,
        [PageEvent.wait cfWait1, PageEvent.click_iframes, PageEvent.wait cfWait2,
         PageEvent.capture])) ∧
    (cf_detected b = true → cf_detected (cap 0) = true →
      cf_handle b cap = (cap 1,
        [PageEvent.wait cfWait1, PageEvent.click_iframes, PageEvent.wait cfWait2,
         PageEvent.capture, PageEvent.wait cfWait3, PageEvent.capture])) := by
  refine ⟨fun h => ?_, fun h1 h2 => ?_, fun h1 h2 => ?_⟩
  · simp [cf_handle, h]
  · simp [cf_handle, h1, h2, cfWait1, cfWait2, waitForDefault]
  · simp [cf_handle, h1, h2, cfWait1, cfWait2, cfWait3, waitForDefault]

/-- Witness for C6: a body ending in the `CF_END` marker triggers the
ladder; with a clean first re-capture the short trace results, and with a
still-matching first re-capture the second capture is returned. -/
theorem cf_handle_single_escalation_witness :
    cf_handle cf_end (fun _ => []) =
      ([], [PageEvent.wait cfWait1, PageEvent.click_iframes, PageEvent.wait cfWait2,
            PageEvent.capture]) ∧
    (cf_handle cf_end (fun _ => cf_end)).1 = cf_end := by
  constructor
  · exact (cf_handle_single_escalation cf_end (fun _ => [])).2.1 (by decide) (by decide)
  · rw [(cf_handle_single_escalation cf_end (fun _ => cf_end)).2.2 (by decide) (by decide)]

/-- C7: the global fetch-size limit read from the environment maps an
explicit `0` to `0` (unlimited) and clamps every other explicitly set
value to the 1 MiB floor: the effective limit is `max n 1048576`. -/
theorem max_size_bytes_floor (n : Nat) :
    max_size_bytes (some (some 0)) = 0 ∧
    (n ≠ 0 → max_size_bytes (some (some n)) = Nat.max n 1048576 ∧
      1048576 ≤ max_size_bytes (some (some n))) := by
  refine ⟨by decide, fun h => ?_⟩
  have heq : max_size_bytes (some (some n)) = Nat.max n 1048576 := by
    simp [max_size_bytes, h]
  exact ⟨heq, heq ▸ Nat.le_max_right _ _⟩

/-- Witness for C7 at the explicit value 5: the effective limit is the
1 MiB floor. -/
theorem max_size_bytes_floor_witness :
    max_size_bytes (some (some 5)) = Nat.max 5 1048576 ∧
    1048576 ≤ max_size_bytes (some (some 5)) :=
  (max_size_bytes_floor 5).2 (by decide)

/-- C8: `page_wait` evaluates the present sub-conditions sequentially in
the fixed order idle-network, then selector, then delay, skipping each
absent one (and a `None` spec entirely); it returns its trace and has no
error outcome — each sub-wait swallows its own timeout. -/
theorem page_wait_fixed_order (w : WaitForM) :
    page_wait none = [] ∧
    page_wait (some w) =
      (match w.idle_network with
        | some ni => [SubWait.idle_network ni.timeout]
        | none => []) ++
      (match w.selector with
        | some s => [SubWait.selector s.timeout s.selector]
        | none => []) ++
      (match w.delay with
        | some d =>
          match d.timeout with
          | some t => [SubWait.delay t]
          | none => []
        | none => []) := by
  refine ⟨rfl, ?_⟩
  obtain ⟨sel, idle, del, nav⟩ := w
  rcases idle with _ | ⟨it⟩ <;> rcases sel with _ | ⟨st, ss⟩ <;>
    rcases del with _ | ⟨_ | dt⟩ <;> rfl

/-- C9: each control-bus operation publishes exactly its `(target, signal)`
pair into the single-slot channel, a later send overwrites the previous
value entirely, and after `pause a` then `resume b` the only observable
value is `(b, Resume)` — `(a, Pause)` is gone.  Sends never fail: the ops
discard the send result. -/
theorem control_bus_latest_overwrites (c : WatchChannel) (a b : String) :
    (pause c a).value = (a, Handler.Pause) ∧
    (resume c a).value = (a, Handler.Resume) ∧
    (shutdown c a).value = (a, Handler.Shutdown) ∧
    (reset c a).value = (a, Handler.Start) ∧
    resume (pause c a) b = { value := (b, Handler.Resume) } ∧
    (resume (pause c a) b).value ≠ (a, Handler.Pause) := by
  refine ⟨rfl, rfl, rfl, rfl, rfl, fun h => ?_⟩
  exact Handler.noConfusion (congrArg Prod.snd h)

/-- C10: whenever the browser backend reports a status whose `u16` cast is
not a valid HTTP status code, both the navigation metadata record
(`perform_chrome_http_request`) and the cache policy (`put_hybrid_cache`)
substitute 417 Expectation Failed, and the statuses they produce are
always valid HTTP status codes. -/
theorem invalid_status_becomes_417 (s : Int) (n : Nat) :
    (valid_status (as_u16 s) = false → perform_chrome_status s = 417) ∧
    valid_status (perform_chrome_status s) = true ∧
    (valid_status n = false → status_or_417 n = 417) ∧
    valid_status (status_or_417 n) = true := by
  have key : ∀ m : Nat, (valid_status m = false → status_or_417 m = 417) ∧
      valid_status (status_or_417 m) = true := by
    intro m
    by_cases h : valid_status m
    · refine ⟨fun hf => absurd h (by simp [hf]), ?_⟩
      rw [status_or_417, if_pos h]
      exact h
    · have hm : valid_status m = false := by simpa using h
      refine ⟨fun _ => by simp [status_or_417, hm], ?_⟩
      rw [status_or_417, if_neg (by simp [hm])]
      decide
  exact ⟨(key (as_u16 s)).1, (key (as_u16 s)).2, (key n).1, (key n).2⟩

/-- Witness for C10: the out-of-range CDP status 1000000 (cast 16960) is
replaced by 417 in the metadata record, and the invalid cache status 65 is
replaced by 417 in the cache policy. -/
theorem invalid_status_becomes_417_witness :
    perform_chrome_status 1000000 = 417 ∧ status_or_417 65 = 417 :=
  ⟨(invalid_status_becomes_417 1000000 65).1 (by decide),
   (invalid_status_becomes_417 1000000 65).2.2.1 (by decide)⟩

end Spider
